import Mathlib

/-!
# Verification of the gpax DKL and MultiTaskGP model definitions

Shallow embedding of `src/gpax/dkl.py` and `src/gpax/multitask/mtgp.py`.

Modelling conventions:
* JAX arrays are modelled exactly: scalars are `ℚ`, vectors are `Fin n → ℚ`,
  matrices are `Matrix (Fin n) (Fin m) ℚ` (for `dkl.py`) or `List (List ℚ)`
  (for `mtgp.py`, whose shapes are data-dependent).
* Code external to the two source files (the `jnp` library, the kernel
  library `gpax.kernels`, the `ExactGP` base class, the numpyro engine) is
  passed in as explicit function/value parameters: `tanh` for `jnp.tanh`,
  `kernelFn` for `get_kernel(self.kernel)`, `lcm` for the `LCMKernel`
  instance, and one input value per `numpyro.sample` draw or user-supplied
  prior callable (sampling is performed by the external inference engine,
  so a model body is a deterministic function of the drawn values).
* Parameter dictionaries that the embedded code only passes around are an
  opaque type parameter `P`; the single dictionary access the code performs
  (`params["noise"]`) is an explicit extraction function `noiseOf`.
-/

namespace Gpax

/-- Elementwise application of a scalar function to a matrix
(`jnp.tanh` applied to an array). -/
def mapMat {n m : ℕ} (f : ℚ → ℚ) (A : Matrix (Fin n) (Fin m) ℚ) :
    Matrix (Fin n) (Fin m) ℚ :=
  fun i j => f (A i j)

/-- `A + b` where `b` is a vector: jnp broadcasting adds the row vector `b`
to every row of `A` (as in `jnp.matmul(X, w) + b`). -/
def addRow {n m : ℕ} (A : Matrix (Fin n) (Fin m) ℚ) (b : Fin m → ℚ) :
    Matrix (Fin n) (Fin m) ℚ :=
  fun i j => A i j + b j

/-- The parameter dictionary consumed by the default MLP `bnn`: the keys
`w1, b1, w2, b2, w3, b3` with compatible shapes.  The hidden widths are
whatever the supplied weight matrices have (the fixed 64/32 widths live in
`bnn_prior`, not in `bnn`). -/
structure BnnParams (d h1 h2 zdim : ℕ) where
  w1 : Matrix (Fin d) (Fin h1) ℚ
  b1 : Fin h1 → ℚ
  w2 : Matrix (Fin h1) (Fin h2) ℚ
  b2 : Fin h2 → ℚ
  w3 : Matrix (Fin h2) (Fin zdim) ℚ
  b3 : Fin zdim → ℚ

/-- `bnn` from `dkl.py` (lines 131-136): the simple Bayesian MLP
`h1 = tanh(X @ w1 + b1); h2 = tanh(h1 @ w2 + b2); z = h2 @ w3 + b3`.
`jnp.tanh` is library code external to the repository, so the scalar
activation is the explicit parameter `tanh`. -/
def bnn {n d h1 h2 zdim : ℕ} (tanh : ℚ → ℚ)
    (X : Matrix (Fin n) (Fin d) ℚ) (params : BnnParams d h1 h2 zdim) :
    Matrix (Fin n) (Fin zdim) ℚ :=
  let h1v := mapMat tanh (addRow (X * params.w1) params.b1)
  let h2v := mapMat tanh (addRow (h1v * params.w2) params.b2)
  addRow (h2v * params.w3) params.b3

/-- Type of `get_kernel(self.kernel)`: a kernel matrix function from the
external `gpax.kernels` library, taking two batches of latent points, the
parameter dictionary, a noise value and a jitter value (the library
signature is `kernel(X, Z, params, noise=0, jitter=...)`). -/
abbrev KernelFn (P : Type) (zdim : ℕ) : Type :=
  ∀ {a b : ℕ}, Matrix (Fin a) (Fin zdim) ℚ → Matrix (Fin b) (Fin zdim) ℚ →
    P → ℚ → ℚ → Matrix (Fin a) (Fin b) ℚ

/-- Type of `self.bnn` (the default `bnn` above or a user `bnn_fn`):
maps a batch of inputs and a parameter dictionary to latent points. -/
abbrev BnnFn (P : Type) (d zdim : ℕ) : Type :=
  ∀ {n : ℕ}, Matrix (Fin n) (Fin d) ℚ → P → Matrix (Fin n) (Fin zdim) ℚ

/-- Type of `self.gp_mean_fn`.  In Python it is called either as
`gp_mean_fn(z)` or as `gp_mean_fn(z, params)` depending on whether
`gp_mean_fn_prior` is set; the optional second argument is modelled as an
`Option P` (`none` = unary call).  The `.squeeze()` of the result is
modelled by the function returning a vector. -/
abbrev MeanFn (P : Type) (zdim : ℕ) : Type :=
  ∀ {n : ℕ}, Matrix (Fin n) (Fin zdim) ℚ → Option P → (Fin n → ℚ)

/-- Type of `self.latent_prior`: called on the embedding `z` inside
`DKL.model`, returning the sampled latent variable (the engine's draw is
already resolved inside the function value). -/
abbrev LatentFn (zdim : ℕ) : Type :=
  ∀ {n : ℕ}, Matrix (Fin n) (Fin zdim) ℚ → Matrix (Fin n) (Fin zdim) ℚ

/-- `jnp.linalg.inv` modelled as the exact rational matrix inverse
(adjugate divided by the determinant; this agrees with Mathlib's `A⁻¹`
on `ℚ`-matrices). -/
def matinv {n : ℕ} (A : Matrix (Fin n) (Fin n) ℚ) : Matrix (Fin n) (Fin n) ℚ :=
  (A.det)⁻¹ • A.adjugate

/-- The training data stored on a fitted model by the `ExactGP` base class
(`self.X_train`, `self.y_train`); these are the only attributes
`DKL.get_mvn_posterior` reads, and it assigns no attribute. -/
structure DKLState (d nTrain : ℕ) where
  X_train : Matrix (Fin nTrain) (Fin d) ℚ
  y_train : Fin nTrain → ℚ

/-- `DKL.get_mvn_posterior` from `dkl.py` (lines 78-108), statement by
statement.  External collaborators are parameters: `kernelFn` is
`get_kernel(self.kernel)`, `jdef` is the kernel library's default jitter
(used where the call site omits `jitter`; the call site for `k_pX` passes
`jitter=0` and leaves `noise` at its library default `0`), `bnnF` is
`self.bnn`, `noiseOf` is the dictionary access `params["noise"]`, and
`hasMeanPrior` is the truthiness of `self.gp_mean_fn_prior`.  The state
`s` is threaded through so that the (absent) mutation of `self.X_train` /
`self.y_train` is observable: `y_residual -= ...` rebinds the local to a
new jnp array (jnp arrays are immutable), so no attribute is assigned. -/
def DKL.get_mvn_posterior {d zdim nTrain nTest : ℕ} {P : Type}
    (kernelFn : KernelFn P zdim) (jdef : ℚ) (bnnF : BnnFn P d zdim)
    (gp_mean_fn : Option (MeanFn P zdim)) (hasMeanPrior : Bool)
    (noiseOf : P → ℚ) (s : DKLState d nTrain)
    (X_new : Matrix (Fin nTest) (Fin d) ℚ) (params : P) (noiseless : Bool) :
    DKLState d nTrain × ((Fin nTest → ℚ) × Matrix (Fin nTest) (Fin nTest) ℚ) :=
  let noise := noiseOf params
  let noise_p := noise * (1 - (if noiseless then (1 : ℚ) else 0))
  let z_train := bnnF s.X_train params
  let z_test := bnnF X_new params
  let y_residual := s.y_train
  let y_residual :=
    match gp_mean_fn with
    | some m => y_residual - m z_train (if hasMeanPrior then some params else none)
    | none => y_residual
  let k_pp := kernelFn z_test z_test params noise_p jdef
  let k_pX := kernelFn z_test z_train params 0 0
  let k_XX := kernelFn z_train z_train params noise jdef
  let K_xx_inv := matinv k_XX
  let cov := k_pp - k_pX * (K_xx_inv * k_pX.transpose)
  let mean := k_pX.mulVec (K_xx_inv.mulVec y_residual)
  let mean :=
    match gp_mean_fn with
    | some m => mean + m z_test (if hasMeanPrior then some params else none)
    | none => mean
  (s, (mean, cov))

/-- A constant jnp array as passed to a numpyro distribution constructor:
its shape together with the constant fill value.  Every distribution
argument appearing in the built-in default priors of the two source files
is `jnp.zeros(s)`, `jnp.ones(s)`, `10*jnp.ones(s)` or a float scalar
(modelled as a rank-0 array). -/
structure CTensor where
  shape : List ℤ
  fill : ℚ
  deriving DecidableEq

/-- A numpyro distribution expression as written in the source's built-in
priors.  `toEvent d k` is `d.to_event(k)`, which reinterprets the `k`
rightmost batch dimensions as event dimensions. -/
inductive NpDist where
  | normal (loc scale : CTensor)
  | logNormal (loc scale : CTensor)
  | toEvent (d : NpDist) (k : ℕ)
  deriving DecidableEq

/-- Shape of one draw from a distribution (numpyro/jax semantics, external
to the repository: a `Normal(loc, scale)`/`LogNormal(loc, scale)` with
equal-shaped constant arguments has sample shape `loc.shape`, and
`to_event` leaves the overall sample shape unchanged; the `numpyro.plate`
contexts in the source range over an already-present leading batch
dimension and so also leave the shape unchanged). -/
def NpDist.sampleShape : NpDist → List ℤ
  | .normal loc _ => loc.shape
  | .logNormal loc _ => loc.shape
  | .toEvent dd _ => dd.sampleShape

/-- One `numpyro.sample(name, d)` statement issued by the embedded code. -/
structure SampleSite where
  name : String
  d : NpDist
  deriving DecidableEq

/-- `sample_weights` from `dkl.py` (lines 118-122):
`numpyro.sample(name, Normal(loc=zeros((in_channels, out_channels)),
scale=ones((in_channels, out_channels))))`. -/
def sample_weights (name : String) (in_channels out_channels : ℤ) : SampleSite :=
  ⟨name, .normal ⟨[in_channels, out_channels], 0⟩ ⟨[in_channels, out_channels], 1⟩⟩

/-- `sample_biases` from `dkl.py` (lines 125-128):
`numpyro.sample(name, Normal(loc=zeros((channels)), scale=ones((channels))))`. -/
def sample_biases (name : String) (channels : ℤ) : SampleSite :=
  ⟨name, .normal ⟨[channels], 0⟩ ⟨[channels], 1⟩⟩

/-- The dictionary produced by one call of the closure `_bnn_prior`
returned by `bnn_prior(input_dim, zdim)` (`dkl.py` lines 139-152), with
each drawn tensor represented by its shape (the values come from the
external engine; the shape is the distribution's sample shape). -/
def bnn_prior (input_dim : ℤ) (zdim : ℤ) : List (String × List ℤ) :=
  let hdim : List ℤ := [64, 32]
  let w1 := sample_weights ("w1") input_dim hdim[0]!
  let b1 := sample_biases ("b1") hdim[0]!
  let w2 := sample_weights ("w2") hdim[0]! hdim[1]!
  let b2 := sample_biases ("b2") hdim[1]!
  let w3 := sample_weights ("w3") hdim[1]! zdim
  let b3 := sample_biases ("b3") zdim
  [("w1", w1.d.sampleShape), ("b1", b1.d.sampleShape),
   ("w2", w2.d.sampleShape), ("b2", b2.d.sampleShape),
   ("w3", w3.d.sampleShape), ("b3", b3.d.sampleShape)]

/-- The observable effect of one execution of `DKL.model` (`dkl.py` lines
44-76): the literal `numpyro.sample` statements of the body itself (only
the `"noise"` site; the prior callables it invokes are separate functions
whose draws enter as values), and the parameters of the final observation
statement `numpyro.sample("y", dist.MultivariateNormal(loc=f_loc,
covariance_matrix=k), obs=y)`. -/
structure DKLRun (n : ℕ) where
  sites : List SampleSite
  loc : Fin n → ℚ
  cov : Matrix (Fin n) (Fin n) ℚ
  obs : Fin n → ℚ

/-- `DKL.model` from `dkl.py` (lines 44-76), statement by statement.
Draw inputs for the external engine: `bnn_draw` is the dictionary returned
by `self.bnn_prior()`, `mean_prior_draw` the result of
`self.gp_mean_fn_prior()` when that callable is set (`none` otherwise),
`kernel_prior` the result of the user `self.kernel_prior()` when set,
`kernel_default_draw` the dictionary from `self._sample_kernel_params()`
(inherited from `ExactGP`, outside these source files), and `noise_draw`
the value drawn at the `"noise"` site. -/
def DKL.model {n d zdim : ℕ} {P : Type}
    (kernelFn : KernelFn P zdim) (jdef : ℚ) (bnnF : BnnFn P d zdim)
    (gp_mean_fn : Option (MeanFn P zdim)) (mean_prior_draw : Option P)
    (latent_prior : Option (LatentFn zdim))
    (kernel_prior : Option P) (kernel_default_draw : P) (noise_draw : ℚ)
    (X : Matrix (Fin n) (Fin d) ℚ) (y : Fin n → ℚ) (bnn_draw : P) :
    DKLRun n :=
  let z := bnnF X bnn_draw
  let f_loc : Fin n → ℚ := 0    -- jnp.zeros(z.shape[0])
  let f_loc :=
    match gp_mean_fn with
    | some m => f_loc + m z mean_prior_draw
    | none => f_loc
  let z :=
    match latent_prior with
    | some lp => lp z
    | none => z
  let kernel_params :=
    match kernel_prior with
    | some p => p
    | none => kernel_default_draw
  let noise := noise_draw
  let k := kernelFn z z kernel_params noise jdef
  ⟨[⟨"noise", .logNormal ⟨[], 0⟩ ⟨[], 1⟩⟩], f_loc, k, y⟩

/-- Whether a Python call completed without raising. -/
def completes {E A : Type} : Except E A → Bool
  | .ok _ => true
  | .error _ => false

/-- The attributes `DKL.__init__` (`dkl.py` lines 28-42) assigns, reduced
to the fields the claims mention; the optional callables are recorded by
presence flags. -/
structure DKLConf where
  input_dim : ℤ
  kernel : String
  hasKernelPrior : Bool
  kernel_dim : ℤ
  hasLatentPrior : Bool
  hasGpMeanFn : Bool
  hasGpMeanFnPrior : Bool
  hasCustomBnn : Bool
  hasCustomBnnPrior : Bool
  deriving DecidableEq

/-- `DKL.__init__` (`dkl.py` lines 28-42).  Modelled from the spec: the
`ExactGP` base constructor it calls (outside these source files) stores
its arguments as attributes and performs no check.  The body itself is
attribute assignment only (both default fallbacks `bnn_fn if bnn_fn else
bnn` and `bnn_fn_prior if bnn_fn_prior else bnn_prior(input_dim, z_dim)`
are recorded as presence flags), so it reaches `.ok` on every argument
combination. -/
def DKL.init (input_dim z_dim : ℤ) (kernel : String)
    (hasKernelPrior hasGpMeanFn hasGpMeanFnPrior hasCustomBnn
      hasCustomBnnPrior hasLatentPrior : Bool) : Except String DKLConf :=
  .ok ⟨input_dim, kernel, hasKernelPrior, z_dim, hasLatentPrior,
    hasGpMeanFn, hasGpMeanFnPrior, hasCustomBnn, hasCustomBnnPrior⟩

/-- The configuration fields of a `MultiTaskGP` object that the claims
mention.  The Python integer attributes may be `None`, hence `Option ℤ`. -/
structure MTGPConf where
  input_dim : ℤ
  num_tasks : Option ℤ
  num_latents : Option ℤ
  rank : Option ℤ
  shared_input : Bool
  deriving DecidableEq

/-- `MultiTaskGP.__init__` (`mtgp.py` lines 48-74).  The two `raise
ValueError(...)` statements become `Except.error`; the `LCMKernel`
construction and the `ExactGP` base constructor (both outside these
source files) are modelled from the spec as non-raising attribute
storage.  `self.num_latents = num_tasks if num_latents is None else
num_latents` appears verbatim in the `.ok` value. -/
def MultiTaskGP.init (input_dim : ℤ) (data_kernel : String)
    (num_latents : Option ℤ) (shared_input_space : Bool)
    (num_tasks : Option ℤ) (rank : Option ℤ) : Except String MTGPConf :=
  if shared_input_space ∧ num_tasks = none then
    .error ("Please specify num_tasks")
  else if ¬shared_input_space ∧ num_latents = none then
    .error ("Please specify num_latents")
  else
    .ok ⟨input_dim, num_tasks,
      (if num_latents = none then num_tasks else num_latents),
      rank, shared_input_space⟩

/-- Lines 90-91 of `MultiTaskGP.model`: `if not self.shared_input and
self.num_tasks is None: self.num_tasks = len(onp.unique(self.X_train[:, -1]))`.
`xLast` is the last column of the stored training inputs;
`len(onp.unique(xLast))` is its number of distinct entries,
`xLast.dedup.length`. -/
def MultiTaskGP.updateNumTasks (c : MTGPConf) (xLast : List ℚ) : MTGPConf :=
  if ¬c.shared_input ∧ c.num_tasks = none then
    { c with num_tasks := some (xLast.dedup.length : ℤ) }
  else c

/-- Lines 93-94 of `MultiTaskGP.model`: `if self.rank is None: self.rank =
self.num_tasks - 1`.  At this line `self.num_tasks` is an `int` in every
state reachable from the constructor; the unreachable `None` case (where
Python would raise a `TypeError`) is mapped through `Option.map`. -/
def MultiTaskGP.updateRank (c : MTGPConf) : MTGPConf :=
  if c.rank = none then
    { c with rank := c.num_tasks.map (fun t => t - 1) }
  else c

/-- The configuration fill-in executed at the start of every
`MultiTaskGP.model` call (`mtgp.py` lines 89-94), in source order. -/
def MultiTaskGP.modelUpdate (c : MTGPConf) (xLast : List ℚ) : MTGPConf :=
  MultiTaskGP.updateRank (MultiTaskGP.updateNumTasks c xLast)

/-- `MultiTaskGP._sample_task_kernel_params` (`mtgp.py` lines 138-154):
its two `numpyro.sample` statements — issued inside
`numpyro.plate("latent_plate_task", num_latents)`, which ranges over the
already-present leading batch dimension — and the returned dictionary
`{"W": W, "v": v}` with each drawn tensor represented by its shape. -/
def MultiTaskGP.sample_task_kernel_params (num_latents num_tasks rank : ℤ) :
    List SampleSite × List (String × List ℤ) :=
  let W_dist := NpDist.normal ⟨[num_latents, num_tasks, rank], 0⟩
      ⟨[num_latents, num_tasks, rank], 10⟩
  let v_dist := NpDist.logNormal ⟨[num_latents, num_tasks], 0⟩
      ⟨[num_latents, num_tasks], 1⟩
  let W := SampleSite.mk ("W") (.toEvent W_dist 2)
  let v := SampleSite.mk ("v") (.toEvent v_dist 1)
  ([W, v], [("W", W.d.sampleShape), ("v", v.d.sampleShape)])

/-- Python dictionary merge `{**a, **b}`: the keys of `a` in order, with
values overridden by `b` where the key also occurs in `b`, followed by the
keys of `b` not occurring in `a`, in order. -/
def pyMerge {V : Type} (a b : List (String × V)) : List (String × V) :=
  a.map (fun kv =>
    match b.lookup kv.1 with
    | some v => (kv.1, v)
    | none => kv) ++
    b.filter (fun kv => (a.lookup kv.1).isNone)

/-- The observable effect of one execution of `MultiTaskGP.model`
(`mtgp.py` lines 76-136): the mutated configuration, the `numpyro.sample`
statements issued with built-in default distributions (the task-kernel
sites when `task_kernel_prior` is absent, then the `"noise"` site when
`noise_prior` is absent; the data-kernel default helper
`_sample_kernel_params` is a separate function whose draw enters as the
value `data_default_draw`), and the parameters of the final observation
`numpyro.sample("y", dist.MultivariateNormal(loc=f_loc,
covariance_matrix=k), obs=y)`. -/
structure MTGPRun (V NV : Type) where
  conf : MTGPConf
  sites : List SampleSite
  loc : List ℚ
  cov : List (List ℚ)
  obs : Option (List ℚ)

/-- `MultiTaskGP.model` from `mtgp.py` (lines 76-136), statement by
statement and in source order.  External collaborators are parameters:
`lcm` is the `LCMKernel` instance `self.kernel` (called as
`self.kernel(X, X, kernel_params, noise, **kwargs)`, with the extra
keyword arguments opaque in `kw`), `mean_fn` is `self.mean_fn` (with the
optional second Python argument — present exactly when `mean_fn_prior` is
set — modelled as an `Option V`, and `.squeeze()` modelled by the function
returning a vector), the three user prior callables enter as the values
they return when set, and `data_default_draw` / `task_default_draw` /
`noise_draw` are the draws of the corresponding built-in default priors.
In `jnp.zeros(self.num_tasks * X.shape[0])` the attribute `self.num_tasks`
was set by the constructor whenever `shared_input` holds; `getD 0` covers
only states unreachable from `init`, where Python would raise. -/
def MultiTaskGP.model {V NV KW : Type}
    (lcm : List (List ℚ) → List (List ℚ) → List (String × V) → NV → KW →
      List (List ℚ))
    (mean_fn : Option (List (List ℚ) → Option V → List ℚ))
    (mean_prior_draw : Option V)
    (data_kernel_prior : Option (List (String × V)))
    (data_default_draw : List (String × V))
    (task_kernel_prior : Option (List (String × V)))
    (task_default_draw : List (String × V))
    (noise_prior : Option NV) (noise_draw : NV)
    (c : MTGPConf) (xLast : List ℚ)
    (X : List (List ℚ)) (y : Option (List ℚ)) (kw : KW) : MTGPRun V NV :=
  let f_loc : List ℚ :=
    if c.shared_input then
      List.replicate ((c.num_tasks.getD 0).toNat * X.length) 0
    else
      List.replicate X.length 0
  let c' := MultiTaskGP.modelUpdate c xLast
  let data_kernel_params :=
    match data_kernel_prior with
    | some p => p
    | none => data_default_draw
  let task_kernel_params :=
    match task_kernel_prior with
    | some p => p
    | none => task_default_draw
  let taskSites : List SampleSite :=
    match task_kernel_prior with
    | some _ => []
    | none =>
        (MultiTaskGP.sample_task_kernel_params (c'.num_latents.getD 0)
          (c'.num_tasks.getD 0) (c'.rank.getD 0)).1
  let kernel_params := pyMerge data_kernel_params task_kernel_params
  let noise :=
    match noise_prior with
    | some nv => nv
    | none => noise_draw
  let noiseSites : List SampleSite :=
    match noise_prior with
    | some _ => []
    | none =>
        [⟨"noise", .toEvent (.logNormal ⟨[c'.num_tasks.getD 0], 0⟩
          ⟨[c'.num_tasks.getD 0], 1⟩) 1⟩]
  let k := lcm X X kernel_params noise kw
  let f_loc :=
    match mean_fn with
    | some m => f_loc.zipWith (· + ·) (m X mean_prior_draw)
    | none => f_loc
  ⟨c', taskSites ++ noiseSites, f_loc, k, y⟩

end Gpax

/-- C4: the embedding used by DKL is a forward pass of a two-hidden-layer
MLP with `tanh` activations and a linear output layer:
`bnn(X, params) = matmul(tanh(matmul(tanh(matmul(X, w1) + b1), w2) + b2), w3) + b3`. -/
theorem c4_bnn_is_two_layer_tanh_mlp {n d h1 h2 zdim : ℕ} (tanh : ℚ → ℚ)
    (X : Matrix (Fin n) (Fin d) ℚ) (params : Gpax.BnnParams d h1 h2 zdim) :
    Gpax.bnn tanh X params =
      Gpax.addRow
        (Gpax.mapMat tanh
          (Gpax.addRow
            (Gpax.mapMat tanh (Gpax.addRow (X * params.w1) params.b1) * params.w2)
            params.b2) * params.w3)
        params.b3 := rfl

/-- C1: `get_mvn_posterior(X_new, params, noiseless)` returns the standard
closed-form GP posterior-predictive parameters in the BNN latent space:
with `z_train = bnn(X_train, params)` and `z_test = bnn(X_new, params)`,
mean `= K(z_test, z_train) * K(z_train, z_train; noise)⁻¹ * (y_train - m(z_train))
+ m(z_test)` (the mean-function terms present only when `gp_mean_fn` is
given) and cov `= K(z_test, z_test; noise_p) - K(z_test, z_train)
* K(z_train, z_train; noise)⁻¹ * K(z_test, z_train)ᵀ`, where the
train-train kernel includes the sampled noise, the test-train kernel is
computed with jitter 0, and the train-train kernel matrix is inverted with
a matrix inverse. -/
theorem c1_get_mvn_posterior_closed_form {d zdim nTrain nTest : ℕ} {P : Type}
    (kernelFn : Gpax.KernelFn P zdim) (jdef : ℚ) (bnnF : Gpax.BnnFn P d zdim)
    (gp_mean_fn : Option (Gpax.MeanFn P zdim)) (hasMeanPrior : Bool)
    (noiseOf : P → ℚ) (s : Gpax.DKLState d nTrain)
    (X_new : Matrix (Fin nTest) (Fin d) ℚ) (params : P) (noiseless : Bool) :
    (Gpax.DKL.get_mvn_posterior kernelFn jdef bnnF gp_mean_fn hasMeanPrior
        noiseOf s X_new params noiseless).2 =
      (let noise := noiseOf params
       let z_train := bnnF s.X_train params
       let z_test := bnnF X_new params
       let argp : Option P := if hasMeanPrior then some params else none
       let K_tt := kernelFn z_test z_train params 0 0
       let K_inv := Gpax.matinv (kernelFn z_train z_train params noise jdef)
       ((match gp_mean_fn with
         | some m =>
             (K_tt * K_inv).mulVec (s.y_train - m z_train argp) + m z_test argp
         | none => (K_tt * K_inv).mulVec s.y_train),
        kernelFn z_test z_test params
            (noise * (1 - (if noiseless then (1 : ℚ) else 0))) jdef -
          (K_tt * K_inv) * K_tt.transpose)) := by
  cases gp_mean_fn <;>
    simp [Gpax.DKL.get_mvn_posterior, Matrix.mulVec_mulVec, Matrix.mul_assoc]

/-- C8: the predictive mean returned by `DKL.get_mvn_posterior` is the same
for `noiseless = True` and `noiseless = False`; the flag only enters the
noise term of the test-test kernel, hence only the covariance. -/
theorem c8_mean_independent_of_noiseless {d zdim nTrain nTest : ℕ} {P : Type}
    (kernelFn : Gpax.KernelFn P zdim) (jdef : ℚ) (bnnF : Gpax.BnnFn P d zdim)
    (gp_mean_fn : Option (Gpax.MeanFn P zdim)) (hasMeanPrior : Bool)
    (noiseOf : P → ℚ) (s : Gpax.DKLState d nTrain)
    (X_new : Matrix (Fin nTest) (Fin d) ℚ) (params : P) :
    (Gpax.DKL.get_mvn_posterior kernelFn jdef bnnF gp_mean_fn hasMeanPrior
        noiseOf s X_new params true).2.1 =
      (Gpax.DKL.get_mvn_posterior kernelFn jdef bnnF gp_mean_fn hasMeanPrior
        noiseOf s X_new params false).2.1 := rfl

/-- C10: `DKL.get_mvn_posterior` leaves the stored training data unchanged:
after the call, `self.X_train` and `self.y_train` equal their values before
the call (the `y_residual -= ...` rebinds a local to a fresh array and
assigns no attribute). -/
theorem c10_posterior_preserves_training_data {d zdim nTrain nTest : ℕ} {P : Type}
    (kernelFn : Gpax.KernelFn P zdim) (jdef : ℚ) (bnnF : Gpax.BnnFn P d zdim)
    (gp_mean_fn : Option (Gpax.MeanFn P zdim)) (hasMeanPrior : Bool)
    (noiseOf : P → ℚ) (s : Gpax.DKLState d nTrain)
    (X_new : Matrix (Fin nTest) (Fin d) ℚ) (params : P) (noiseless : Bool) :
    (Gpax.DKL.get_mvn_posterior kernelFn jdef bnnF gp_mean_fn hasMeanPrior
        noiseOf s X_new params noiseless).1.X_train = s.X_train ∧
      (Gpax.DKL.get_mvn_posterior kernelFn jdef bnnF gp_mean_fn hasMeanPrior
        noiseOf s X_new params noiseless).1.y_train = s.y_train :=
  ⟨rfl, rfl⟩

/-- C2: in `DKL.model(X, y)` the covariance matrix passed to the
multivariate-normal likelihood of `y` is the GP kernel evaluated on the
neural-network feature embedding `z = bnn(X, bnn_params)` of the inputs
(optionally passed through `latent_prior` first), never on the raw inputs
`X`, and `y` is observed as a sample of `MultivariateNormal(f_loc, k)`
where `f_loc` is zero unless a GP mean function is given. -/
theorem c2_model_covariance_on_embedding {n d zdim : ℕ} {P : Type}
    (kernelFn : Gpax.KernelFn P zdim) (jdef : ℚ) (bnnF : Gpax.BnnFn P d zdim)
    (gp_mean_fn : Option (Gpax.MeanFn P zdim)) (mean_prior_draw : Option P)
    (latent_prior : Option (Gpax.LatentFn zdim))
    (kernel_prior : Option P) (kernel_default_draw : P) (noise_draw : ℚ)
    (X : Matrix (Fin n) (Fin d) ℚ) (y : Fin n → ℚ) (bnn_draw : P) :
    Gpax.DKL.model kernelFn jdef bnnF gp_mean_fn mean_prior_draw latent_prior
        kernel_prior kernel_default_draw noise_draw X y bnn_draw =
      (let z := bnnF X bnn_draw
       let z' := match latent_prior with | some lp => lp z | none => z
       let kp := match kernel_prior with | some p => p | none => kernel_default_draw
       ⟨[⟨"noise", .logNormal ⟨[], 0⟩ ⟨[], 1⟩⟩],
        (match gp_mean_fn with
         | some m => m z mean_prior_draw
         | none => 0),
        kernelFn z' z' kp noise_draw jdef,
        y⟩) := by
  cases gp_mean_fn <;> simp [Gpax.DKL.model]

/-- C3 counterexample: constructing `MultiTaskGP` with
`shared_input_space=True` and `num_tasks=None` (both their default values)
raises `ValueError("Please specify num_tasks")`, so it is not the case
that every combination of constructor arguments completes without
raising. -/
theorem c3_counterexample_mtgp_constructor_raises :
    Gpax.MultiTaskGP.init 1 ("RBF") none true none none =
      .error ("Please specify num_tasks") := rfl

/-- C3 amended: constructing a `DKL` completes for every argument
combination, and constructing a `MultiTaskGP` raises a `ValueError`
exactly when `shared_input_space` is true and `num_tasks` is `None`, or
`shared_input_space` is false and `num_latents` is `None`; it completes
for every other combination. -/
theorem c3_amended_constructors_total_except_required_counts
    (input_dim z_dim : ℤ) (kernel dk : String) (p1 p2 p3 p4 p5 p6 : Bool)
    (nl : Option ℤ) (sis : Bool) (nt r : Option ℤ) :
    Gpax.completes
        (Gpax.DKL.init input_dim z_dim kernel p1 p2 p3 p4 p5 p6) = true ∧
      (Gpax.completes (Gpax.MultiTaskGP.init input_dim dk nl sis nt r) = true ↔
        ¬((sis = true ∧ nt = none) ∨ (sis = false ∧ nl = none))) := by
  refine ⟨rfl, ?_⟩
  unfold Gpax.MultiTaskGP.init
  split_ifs with h1 h2 <;> simp_all [Gpax.completes]

/-- C5: in `MultiTaskGP.model(X, y)` the prior mean `f_loc` is a zero
vector of length `num_tasks * X.shape[0]` when `shared_input_space` is
true and of length `X.shape[0]` otherwise (with `mean_fn(X)` added
elementwise when a mean function is given), the covariance `k` is the LCM
task-correlation kernel applied to `X` with the merged data-kernel and
task-kernel parameter dictionaries and the sampled noise, and `y` is
observed as a sample of `MultivariateNormal(f_loc, k)`. -/
theorem c5_mtgp_model_observation {V NV KW : Type}
    (lcm : List (List ℚ) → List (List ℚ) → List (String × V) → NV → KW →
      List (List ℚ))
    (mean_fn : Option (List (List ℚ) → Option V → List ℚ))
    (mean_prior_draw : Option V)
    (dkp : Option (List (String × V))) (ddd : List (String × V))
    (tkp : Option (List (String × V))) (tdd : List (String × V))
    (npr : Option NV) (nd : NV)
    (c : Gpax.MTGPConf) (xLast : List ℚ) (X : List (List ℚ))
    (y : Option (List ℚ)) (kw : KW) :
    Gpax.MultiTaskGP.model lcm mean_fn mean_prior_draw dkp ddd tkp tdd
        npr nd c xLast X y kw =
      (let c' := Gpax.MultiTaskGP.modelUpdate c xLast
       let base : List ℚ :=
         if c.shared_input then
           List.replicate ((c.num_tasks.getD 0).toNat * X.length) 0
         else
           List.replicate X.length 0
       ⟨c',
        (match tkp with
         | some _ => []
         | none =>
             (Gpax.MultiTaskGP.sample_task_kernel_params
               (c'.num_latents.getD 0) (c'.num_tasks.getD 0)
               (c'.rank.getD 0)).1) ++
          (match npr with
           | some _ => []
           | none =>
               [⟨"noise", .toEvent (.logNormal ⟨[c'.num_tasks.getD 0], 0⟩
                 ⟨[c'.num_tasks.getD 0], 1⟩) 1⟩]),
        (match mean_fn with
         | some m => base.zipWith (· + ·) (m X mean_prior_draw)
         | none => base),
        lcm X X (Gpax.pyMerge (dkp.getD ddd) (tkp.getD tdd)) (npr.getD nd) kw,
        y⟩) := by
  cases dkp <;> cases tkp <;> cases npr <;> rfl

/-- C6: in both `DKL.model` and `MultiTaskGP.model`, every hyperparameter
group comes from the user-supplied prior callable when one was given
(`kernel_prior`, `data_kernel_prior`, `task_kernel_prior`, `noise_prior`)
and otherwise from the built-in default priors; DKL's default
observational noise is a scalar `LogNormal(0, 1)` sample and
MultiTaskGP's default observational noise is a `LogNormal(0, 1)` vector of
length `num_tasks`. -/
theorem c6_prior_branching_and_default_noise
    {n d zdim : ℕ} {P V NV KW : Type}
    (kernelFn : Gpax.KernelFn P zdim) (jdef : ℚ) (bnnF : Gpax.BnnFn P d zdim)
    (gp_mean_fn : Option (Gpax.MeanFn P zdim)) (mean_prior_draw : Option P)
    (latent_prior : Option (Gpax.LatentFn zdim))
    (kernel_prior : Option P) (kernel_default_draw : P) (noise_draw : ℚ)
    (X : Matrix (Fin n) (Fin d) ℚ) (y : Fin n → ℚ) (bnn_draw : P)
    (lcm : List (List ℚ) → List (List ℚ) → List (String × V) → NV → KW →
      List (List ℚ))
    (mean_fn : Option (List (List ℚ) → Option V → List ℚ)) (mpd : Option V)
    (dkp : Option (List (String × V))) (ddd : List (String × V))
    (tkp : Option (List (String × V))) (tdd : List (String × V))
    (npr : Option NV) (nd : NV) (c : Gpax.MTGPConf) (xLast : List ℚ)
    (Xl : List (List ℚ)) (yl : Option (List ℚ)) (kw : KW) :
    (Gpax.DKL.model kernelFn jdef bnnF gp_mean_fn mean_prior_draw
        latent_prior kernel_prior kernel_default_draw noise_draw X y
        bnn_draw).cov =
      (let z := bnnF X bnn_draw
       let z' := match latent_prior with | some lp => lp z | none => z
       kernelFn z' z' (kernel_prior.getD kernel_default_draw) noise_draw
         jdef) ∧
    (Gpax.DKL.model kernelFn jdef bnnF gp_mean_fn mean_prior_draw
        latent_prior kernel_prior kernel_default_draw noise_draw X y
        bnn_draw).sites = [⟨"noise", .logNormal ⟨[], 0⟩ ⟨[], 1⟩⟩] ∧
    (Gpax.MultiTaskGP.model lcm mean_fn mpd dkp ddd tkp tdd npr nd c
        xLast Xl yl kw).cov =
      lcm Xl Xl (Gpax.pyMerge (dkp.getD ddd) (tkp.getD tdd))
        (npr.getD nd) kw ∧
    (Gpax.MultiTaskGP.model lcm mean_fn mpd dkp ddd tkp tdd npr nd c
        xLast Xl yl kw).sites =
      (let c' := Gpax.MultiTaskGP.modelUpdate c xLast
       (match tkp with
        | some _ => []
        | none =>
            (Gpax.MultiTaskGP.sample_task_kernel_params
              (c'.num_latents.getD 0) (c'.num_tasks.getD 0)
              (c'.rank.getD 0)).1) ++
         (match npr with
          | some _ => []
          | none =>
              [⟨"noise", .toEvent (.logNormal ⟨[c'.num_tasks.getD 0], 0⟩
                ⟨[c'.num_tasks.getD 0], 1⟩) 1⟩])) := by
  refine ⟨?_, rfl, ?_, ?_⟩
  · cases kernel_prior <;> rfl
  · cases dkp <;> cases tkp <;> cases npr <;> rfl
  · cases tkp <;> cases npr <;> rfl

/-- C7: the default BNN prior `bnn_prior(input_dim, zdim)` produces
exactly the keys `w1, b1, w2, b2, w3, b3` with shapes `(input_dim, 64)`,
`(64,)`, `(64, 32)`, `(32,)`, `(32, zdim)`, `(zdim,)`, and
`MultiTaskGP._sample_task_kernel_params` produces exactly the keys `W`
and `v` with shapes `(num_latents, num_tasks, rank)` and
`(num_latents, num_tasks)`. -/
theorem c7_default_prior_dict_shapes
    (input_dim zdim num_latents num_tasks rank : ℤ) :
    Gpax.bnn_prior input_dim zdim =
      [("w1", [input_dim, 64]), ("b1", [64]), ("w2", [64, 32]),
       ("b2", [32]), ("w3", [32, zdim]), ("b3", [zdim])] ∧
    (Gpax.MultiTaskGP.sample_task_kernel_params num_latents num_tasks
        rank).2 =
      [("W", [num_latents, num_tasks, rank]),
       ("v", [num_latents, num_tasks])] :=
  ⟨rfl, rfl⟩

lemma updateNumTasks_shared (c : Gpax.MTGPConf) (xs : List ℚ) :
    (Gpax.MultiTaskGP.updateNumTasks c xs).shared_input = c.shared_input := by
  unfold Gpax.MultiTaskGP.updateNumTasks; split <;> rfl

lemma updateNumTasks_rank (c : Gpax.MTGPConf) (xs : List ℚ) :
    (Gpax.MultiTaskGP.updateNumTasks c xs).rank = c.rank := by
  unfold Gpax.MultiTaskGP.updateNumTasks; split <;> rfl

lemma updateRank_num_tasks (c : Gpax.MTGPConf) :
    (Gpax.MultiTaskGP.updateRank c).num_tasks = c.num_tasks := by
  unfold Gpax.MultiTaskGP.updateRank; split <;> rfl

lemma updateRank_shared (c : Gpax.MTGPConf) :
    (Gpax.MultiTaskGP.updateRank c).shared_input = c.shared_input := by
  unfold Gpax.MultiTaskGP.updateRank; split <;> rfl

lemma updateRank_idem (c : Gpax.MTGPConf) :
    Gpax.MultiTaskGP.updateRank (Gpax.MultiTaskGP.updateRank c) =
      Gpax.MultiTaskGP.updateRank c := by
  unfold Gpax.MultiTaskGP.updateRank
  rcases c with ⟨i, nt, nl, rk, sh⟩
  rcases rk with _ | rk
  · rcases nt with _ | t <;> simp
  · simp

lemma updateNumTasks_after_update (c : Gpax.MTGPConf) (xs xs' : List ℚ) :
    Gpax.MultiTaskGP.updateNumTasks (Gpax.MultiTaskGP.modelUpdate c xs) xs' =
      Gpax.MultiTaskGP.modelUpdate c xs := by
  unfold Gpax.MultiTaskGP.modelUpdate
  unfold Gpax.MultiTaskGP.updateNumTasks Gpax.MultiTaskGP.updateRank
  rcases c with ⟨i, nt, nl, rk, sh⟩
  rcases sh with _ | _ <;> rcases nt with _ | t <;> rcases rk with _ | rk <;> simp

/-- C9: `MultiTaskGP` fills in unspecified configuration by mutating the
model object: at construction `num_latents` is set to `num_tasks` when it
is `None`; on a call to `model`, `rank` is set to `num_tasks - 1` when it
is `None`, and `num_tasks` — when `shared_input_space` is false and it is
`None` — is set to the number of distinct task indices in the last column
of `X_train`; once assigned, the values persist for all later calls. -/
theorem c9_config_fill_in_and_persistence {V NV KW : Type}
    (input_dim : ℤ) (dk : String) (nt l : ℤ) (r : Option ℤ)
    (c : Gpax.MTGPConf) (xs xs' : List ℚ)
    (lcm : List (List ℚ) → List (List ℚ) → List (String × V) → NV → KW →
      List (List ℚ))
    (mean_fn : Option (List (List ℚ) → Option V → List ℚ)) (mpd : Option V)
    (dkp : Option (List (String × V))) (ddd : List (String × V))
    (tkp : Option (List (String × V))) (tdd : List (String × V))
    (npr : Option NV) (nd : NV)
    (X : List (List ℚ)) (y : Option (List ℚ)) (kw : KW) :
    Gpax.MultiTaskGP.init input_dim dk none true (some nt) r =
      .ok ⟨input_dim, some nt, some nt, r, true⟩ ∧
    Gpax.MultiTaskGP.init input_dim dk (some l) true (some nt) r =
      .ok ⟨input_dim, some nt, some l, r, true⟩ ∧
    (Gpax.MultiTaskGP.modelUpdate c xs).num_tasks =
      (if ¬c.shared_input ∧ c.num_tasks = none then
        some (xs.dedup.length : ℤ)
      else c.num_tasks) ∧
    (Gpax.MultiTaskGP.modelUpdate c xs).rank =
      (if c.rank = none then
        ((Gpax.MultiTaskGP.modelUpdate c xs).num_tasks).map (fun t => t - 1)
      else c.rank) ∧
    (Gpax.MultiTaskGP.model lcm mean_fn mpd dkp ddd tkp tdd npr nd c xs
        X y kw).conf = Gpax.MultiTaskGP.modelUpdate c xs ∧
    Gpax.MultiTaskGP.modelUpdate (Gpax.MultiTaskGP.modelUpdate c xs) xs' =
      Gpax.MultiTaskGP.modelUpdate c xs := by
  refine ⟨rfl, rfl, ?_, ?_, rfl, ?_⟩
  · rcases c with ⟨i, cnt, cnl, crk, csh⟩
    cases csh <;> cases cnt <;> cases crk <;>
      simp [Gpax.MultiTaskGP.modelUpdate, Gpax.MultiTaskGP.updateRank,
        Gpax.MultiTaskGP.updateNumTasks]
  · rcases c with ⟨i, cnt, cnl, crk, csh⟩
    cases csh <;> cases cnt <;> cases crk <;>
      simp [Gpax.MultiTaskGP.modelUpdate, Gpax.MultiTaskGP.updateRank,
        Gpax.MultiTaskGP.updateNumTasks]
  · rw [Gpax.MultiTaskGP.modelUpdate, updateNumTasks_after_update,
      Gpax.MultiTaskGP.modelUpdate, updateRank_idem]
